import Mathlib

/-!
Verification of the Silent-Cry AI service (`backend/ai-service/app.py`).

The file gives a shallow embedding of the `POST /analyze` request pipeline:
configuration loading, the authentication gate (`verify_token`), the file
validator (`validate_file`), the two stub scorers (`analyze_audio`,
`analyze_video`) and the response composition of the `analyze` handler.
Every definition is translated from `app.py`; the pipeline is instrumented
with a trace of executed steps so that ordering properties can be stated.

Modelling conventions:
* machine floats become `ℚ`; Python `round(x, 2)` becomes `round2`
  (round half to even, as Python does);
* an uploaded file is its declared content type, its byte payload and a
  stream position; `file.read()` becomes `read`;
* the OpenCV decode `cv2.imdecode` is an opaque parameter
  `dec : List Nat → Option (List Nat)` returning the pixel-intensity
  sample list of a successfully decoded image, or `none` on failure;
* the auth delegate is an opaque function from the forwarded token to an
  `AuthResult` (an HTTP status, or a network failure / timeout, the case
  `requests` surfaces as a `RequestException`);
* the exception-based control flow becomes `Except HTTPError`;
* detail strings keep the French source messages, with the apostrophes
  omitted and the Python list interpolation rendered by `String.intercalate`.
-/

namespace SilentCry

/-- Process environment as visible to the service: the variables it may
contain, each optional.  Numeric variables are modelled already parsed
(the source applies `float` / `int` to the raw string). -/
structure Env where
  MIN_AUDIO_SCORE : Option ℚ
  MIN_VIDEO_SCORE : Option ℚ
  AUTH_SERVICE_URL : Option String
  PORT : Option Nat
  MAX_FILE_SIZE : Option Nat

/-- Embeds `class Config` of `app.py` (lines 27-33). -/
structure Config where
  MIN_AUDIO_SCORE : ℚ
  MIN_VIDEO_SCORE : ℚ
  ALLOWED_AUDIO_TYPES : List String
  ALLOWED_VIDEO_TYPES : List String
  MAX_FILE_SIZE : Nat
  AUTH_SERVICE_URL : String

/-- Embeds the initialisation of `Config`: the two thresholds and the auth
base URL read the environment with a default (`os.getenv`); the MIME
allow-lists and `MAX_FILE_SIZE = 10 * 1024 * 1024` are fixed constants of
the class body and consult no environment variable. -/
def Config.ofEnv (env : Env) : Config where
  MIN_AUDIO_SCORE := env.MIN_AUDIO_SCORE.getD 0.7
  MIN_VIDEO_SCORE := env.MIN_VIDEO_SCORE.getD 0.5
  ALLOWED_AUDIO_TYPES := ["audio/wav", "audio/x-wav", "audio/mpeg"]
  ALLOWED_VIDEO_TYPES := ["video/mp4", "image/jpeg", "image/png"]
  MAX_FILE_SIZE := 10 * 1024 * 1024
  AUTH_SERVICE_URL := env.AUTH_SERVICE_URL.getD "http://auth-service:9000"

/-- Embeds `port = int(os.getenv("PORT", 8000))` (line 191). -/
def port (env : Env) : Nat := env.PORT.getD 8000

/-- An HTTP error response, as raised by `HTTPException(status_code, detail)`. -/
structure HTTPError where
  status_code : Nat
  detail : String
deriving DecidableEq

/-- An uploaded file: declared content type (client supplied, untrusted),
byte payload, and current stream position of the underlying file object. -/
structure UploadFile where
  content_type : String
  data : List Nat
  pos : Nat
deriving DecidableEq

/-- Embeds `file.read()` / `await file.read()`: returns the bytes from the
current stream position to the end and leaves the position at the end. -/
def read (f : UploadFile) : List Nat × UploadFile :=
  (f.data.drop f.pos, { f with pos := f.data.length })

/-- Detail string of the 400 rejection for a disallowed audio type (line 69). -/
def audioTypeDetail (cfg : Config) : String :=
  "Type audio non supporté. Types autorisés: " ++
    String.intercalate ", " cfg.ALLOWED_AUDIO_TYPES

/-- Detail string of the 400 rejection for a disallowed video/image type (line 75). -/
def videoTypeDetail (cfg : Config) : String :=
  "Type vidéo/image non supporté. Types autorisés: " ++
    String.intercalate ", " cfg.ALLOWED_VIDEO_TYPES

/-- Detail string of the 413 rejection for an oversized file (line 86). -/
def sizeDetail (cfg : Config) : String :=
  "Fichier trop volumineux. Taille max: " ++ toString cfg.MAX_FILE_SIZE ++ " bytes"

/-- The MIME-type part of `validate_file` (lines 64-76): when the expected
modality tag is `"audio"` (resp. `"video"`) the declared content type must
belong to the corresponding allow-list, otherwise an `HTTPException` with
status 400 is raised; any other tag performs no MIME check. -/
def mimeCheck (cfg : Config) (file : UploadFile) (expected_type : Option String) :
    Except HTTPError Unit :=
  if expected_type = some "audio" then
    if file.content_type ∈ cfg.ALLOWED_AUDIO_TYPES then Except.ok ()
    else Except.error ⟨400, audioTypeDetail cfg⟩
  else if expected_type = some "video" then
    if file.content_type ∈ cfg.ALLOWED_VIDEO_TYPES then Except.ok ()
    else Except.error ⟨400, videoTypeDetail cfg⟩
  else Except.ok ()

/-- Embeds `validate_file` (lines 62-87): MIME check first; then
`file.file.seek(0, 2)` / `tell()` measures the byte length,
`file.file.seek(0)` rewinds the stream, and a length strictly above
`MAX_FILE_SIZE` raises status 413.  On success the file is returned with
its stream position at 0. -/
def validate_file (cfg : Config) (file : UploadFile) (expected_type : Option String) :
    Except HTTPError UploadFile :=
  match mimeCheck cfg file expected_type with
  | Except.error e => Except.error e
  | Except.ok _ =>
    let fileAtEnd : UploadFile := { file with pos := file.data.length }
    let file_size := fileAtEnd.pos
    let fileAtStart : UploadFile := { fileAtEnd with pos := 0 }
    if file_size > cfg.MAX_FILE_SIZE then Except.error ⟨413, sizeDetail cfg⟩
    else Except.ok fileAtStart

/-- Steps of the per-request pipeline, used to instrument the handler with
an execution trace.  `receive` and `respond` frame the handler inside the
web framework and are not separate code of `app.py`; the six steps below
are the ones the handler itself performs. -/
inductive Event where
  | authenticate
  | validateAudio
  | validateVideo
  | scoreAudio
  | scoreVideo
  | compose
deriving DecidableEq

/-- Decides whether the first trace is a prefix of the second. -/
def traceLe : List Event → List Event → Bool
  | [], _ => true
  | _ :: _, [] => false
  | a :: t, b :: u => a = b && traceLe t u

/-- The step order claimed by the specification:
authenticate, validate both files, then score both. -/
def specTrace : List Event :=
  [Event.authenticate, Event.validateAudio, Event.validateVideo,
   Event.scoreAudio, Event.scoreVideo, Event.compose]

/-- The step order the code actually executes: each scorer validates its
own file immediately before scoring it. -/
def codeTrace : List Event :=
  [Event.authenticate, Event.validateAudio, Event.scoreAudio,
   Event.validateVideo, Event.scoreVideo, Event.compose]

/-- Outcome of the `requests.get` call to the auth delegate: either a
response with some status code, or a `RequestException` (connection
failure or timeout). -/
inductive AuthResult where
  | response (status_code : Nat)
  | networkError
deriving DecidableEq

/-- Embeds `verify_token` (lines 40-60): a delegate response with status
other than 200 raises 401 "Token invalide"; a `RequestException`
(unreachable delegate or timeout) raises 503.  The 401 `HTTPException` is
not a `RequestException`, so it is not converted to 503 by the handler. -/
def verify_token (r : AuthResult) : Except HTTPError Unit :=
  match r with
  | AuthResult.response s =>
    if s ≠ 200 then Except.error ⟨401, "Token invalide"⟩ else Except.ok ()
  | AuthResult.networkError =>
    Except.error ⟨503, "Service authentification indisponible"⟩

/-- Arithmetic mean of a pixel-intensity sample, embedding `np.mean(img)`
(decoded images are nonempty, so the division is by a positive length). -/
def mean (img : List Nat) : ℚ := (img.sum : ℚ) / (img.length : ℚ)

/-- Embeds `analyze_audio` (lines 89-105): validates the file as audio,
reads the full payload, and returns the stub score 0.75.  The first trace
component records the steps attempted. -/
def analyze_audio (cfg : Config) (audio : UploadFile) :
    List Event × Except HTTPError (ℚ × UploadFile) :=
  match validate_file cfg audio (some "audio") with
  | Except.error e => ([Event.validateAudio], Except.error e)
  | Except.ok a =>
    let r := read a
    ([Event.validateAudio, Event.scoreAudio], Except.ok (0.75, r.2))

/-- Embeds `analyze_video` (lines 107-128): validates the file as video,
reads the payload, decodes it with `dec` (the `cv2.imdecode` parameter).
A failed decode raises `ValueError`, which the generic handler converts to
status 500; a decoded image scores 0.6 when its mean intensity is strictly
below 100 and 0.2 otherwise. -/
def analyze_video (cfg : Config) (dec : List Nat → Option (List Nat))
    (video : UploadFile) : List Event × Except HTTPError (ℚ × UploadFile) :=
  match validate_file cfg video (some "video") with
  | Except.error e => ([Event.validateVideo], Except.error e)
  | Except.ok v =>
    let r := read v
    match dec r.1 with
    | none =>
      ([Event.validateVideo, Event.scoreVideo],
       Except.error ⟨500, "Erreur lors de l analyse vidéo"⟩)
    | some img =>
      ([Event.validateVideo, Event.scoreVideo],
       Except.ok ((if mean img < 100 then (0.6 : ℚ) else 0.2), r.2))

/-- Rounds half to even, the tie-breaking rule of Python `round`. -/
def roundHalfEven (q : ℚ) : ℤ :=
  let n := ⌊q⌋
  let r := q - n
  if r < 1 / 2 then n
  else if 1 / 2 < r then n + 1
  else if n % 2 = 0 then n else n + 1

/-- Embeds Python `round(x, 2)` on the idealised rational scores. -/
def round2 (q : ℚ) : ℚ := (roundHalfEven (q * 100) : ℚ) / 100

/-- The JSON body returned by a successful `POST /analyze` (lines 149-163). -/
structure Verdict where
  alert : Bool
  scores_audio : ℚ
  scores_video : ℚ
  thresholds_audio : ℚ
  thresholds_video : ℚ
  metadata_audio_type : String
  metadata_video_type : String
deriving DecidableEq

/-- Embeds the `analyze` handler (lines 130-172) together with its
framework-resolved dependency `verify_token`.  `creds` is the bearer token
of the `Authorization` header when one is present: `HTTPBearer()` with its
default `auto_error` rejects a request without bearer credentials with
status 403 "Not authenticated" before `verify_token` ever runs (FastAPI
security-scheme behaviour).  With credentials, `verify_token` consults the
delegate; then the handler body scores audio, scores video, and composes
the verdict: `alert` compares the raw scores to the thresholds with a
logical `or`, while the reported scores are rounded via `round2`. -/
def analyze (cfg : Config) (dec : List Nat → Option (List Nat))
    (creds : Option String) (delegate : String → AuthResult)
    (audio video : UploadFile) : List Event × Except HTTPError Verdict :=
  match creds with
  | none => ([Event.authenticate], Except.error ⟨403, "Not authenticated"⟩)
  | some token =>
    match verify_token (delegate token) with
    | Except.error e => ([Event.authenticate], Except.error e)
    | Except.ok _ =>
      match analyze_audio cfg audio with
      | (ta, Except.error e) => (Event.authenticate :: ta, Except.error e)
      | (ta, Except.ok (audio_score, _)) =>
        match analyze_video cfg dec video with
        | (tv, Except.error e) =>
          (Event.authenticate :: (ta ++ tv), Except.error e)
        | (tv, Except.ok (video_score, _)) =>
          (Event.authenticate :: (ta ++ tv ++ [Event.compose]),
           Except.ok
             { alert := decide (audio_score > cfg.MIN_AUDIO_SCORE) ||
                 decide (video_score > cfg.MIN_VIDEO_SCORE)
               scores_audio := round2 audio_score
               scores_video := round2 video_score
               thresholds_audio := cfg.MIN_AUDIO_SCORE
               thresholds_video := cfg.MIN_VIDEO_SCORE
               metadata_audio_type := audio.content_type
               metadata_video_type := video.content_type })

/-- Example environment with no variables set: all defaults apply. -/
def exEnv : Env := ⟨none, none, none, none, none⟩

/-- Example environment that does supply a `MAX_FILE_SIZE` variable. -/
def exEnvMax : Env := ⟨none, none, none, none, some 5⟩

/-- Configuration loaded from the empty environment. -/
def exCfg : Config := Config.ofEnv exEnv

/-- Example decoder: every byte string decodes to a dark 3-pixel sample. -/
def exDec : List Nat → Option (List Nat) := fun _ => some [50, 50, 50]

/-- Example decoder: every byte string decodes to a bright 2-pixel sample. -/
def exDecBright : List Nat → Option (List Nat) := fun _ => some [200, 100]

/-- Example decoder that fails on every byte string. -/
def exDecNone : List Nat → Option (List Nat) := fun _ => none

/-- Example auth delegate accepting every token with status 200. -/
def exDelegate : String → AuthResult := fun _ => AuthResult.response 200

/-- Example auth delegate rejecting every token with status 404. -/
def exDelegate404 : String → AuthResult := fun _ => AuthResult.response 404

/-- Example valid audio upload. -/
def exAudio : UploadFile := ⟨"audio/wav", [1, 2, 3], 0⟩

/-- Example valid audio upload whose stream is not at the start. -/
def exSeekAudio : UploadFile := ⟨"audio/wav", [1, 2, 3], 2⟩

/-- Example valid image upload. -/
def exVideo : UploadFile := ⟨"image/png", [9, 9], 0⟩

/-- Example audio upload with a disallowed declared type. -/
def exBadAudio : UploadFile := ⟨"text/plain", [1], 0⟩

/-- Example video upload with a disallowed declared type. -/
def exBadVideo : UploadFile := ⟨"text/plain", [9, 9], 0⟩

/-- Example audio upload one byte above the size ceiling. -/
def exBigAudio : UploadFile :=
  ⟨"audio/wav", List.replicate (10 * 1024 * 1024 + 1) 0, 0⟩

/-- Example audio upload exactly at the size ceiling. -/
def exMaxAudio : UploadFile :=
  ⟨"audio/wav", List.replicate (10 * 1024 * 1024) 0, 0⟩

/-- Example audio upload that is both of a disallowed type and oversized. -/
def exBigBadAudio : UploadFile :=
  ⟨"text/plain", List.replicate (10 * 1024 * 1024 + 1) 0, 0⟩

/-- The verdict of the example request built from `exAudio` and `exVideo`. -/
def exVerdict : Verdict :=
  ⟨true, 0.75, 0.6, 0.7, 0.5, "audio/wav", "image/png"⟩

/-- Claim C10: after the file validator completes successfully, the file is
returned with its stream position at 0 and no other field changed, so the
scorer's subsequent full read returns the complete byte payload. -/
theorem validator_resets_stream (cfg : Config) (file : UploadFile)
    (et : Option String) (f' : UploadFile)
    (h : validate_file cfg file et = Except.ok f') :
    f' = { file with pos := 0 } ∧
      read f' = (file.data, { file with pos := file.data.length }) := by
  unfold validate_file at h
  split at h
  · exact absurd h (by simp)
  · dsimp only at h
    split at h
    · exact absurd h (by simp)
    · have hf : f' = { file with pos := 0 } := by
        cases h
        rfl
      subst hf
      exact ⟨rfl, by simp [read]⟩

/-- Witness for C10 at a concrete file whose stream starts at position 2. -/
theorem validator_resets_stream_witness :
    (⟨"audio/wav", [1, 2, 3], 0⟩ : UploadFile) = { exSeekAudio with pos := 0 } ∧
      read ⟨"audio/wav", [1, 2, 3], 0⟩ =
        (exSeekAudio.data, { exSeekAudio with pos := exSeekAudio.data.length }) :=
  validator_resets_stream exCfg exSeekAudio (some "audio")
    ⟨"audio/wav", [1, 2, 3], 0⟩ rfl

/-- Claim C5: a file whose declared content type is outside its modality's
allow-list is rejected with status 400 and a detail naming the allowed
set, whatever its byte content, and the scorer of that modality rejects it
without a scoring step appearing in the trace. -/
theorem bad_type_rejected (cfg : Config) (dec : List Nat → Option (List Nat))
    (audio video : UploadFile)
    (ha : audio.content_type ∉ cfg.ALLOWED_AUDIO_TYPES)
    (hv : video.content_type ∉ cfg.ALLOWED_VIDEO_TYPES) :
    validate_file cfg audio (some "audio") =
      Except.error ⟨400, audioTypeDetail cfg⟩ ∧
    validate_file cfg video (some "video") =
      Except.error ⟨400, videoTypeDetail cfg⟩ ∧
    analyze_audio cfg audio =
      ([Event.validateAudio], Except.error ⟨400, audioTypeDetail cfg⟩) ∧
    analyze_video cfg dec video =
      ([Event.validateVideo], Except.error ⟨400, videoTypeDetail cfg⟩) := by
  have h1 : validate_file cfg audio (some "audio") =
      Except.error ⟨400, audioTypeDetail cfg⟩ := by
    simp [validate_file, mimeCheck, ha]
  have h2 : validate_file cfg video (some "video") =
      Except.error ⟨400, videoTypeDetail cfg⟩ := by
    simp [validate_file, mimeCheck, hv]
  exact ⟨h1, h2, by simp [analyze_audio, h1], by simp [analyze_video, h2]⟩

/-- Witness for C5 at concrete uploads declared `text/plain`. -/
theorem bad_type_rejected_witness :
    validate_file exCfg exBadAudio (some "audio") =
      Except.error ⟨400, audioTypeDetail exCfg⟩ ∧
    validate_file exCfg exBadVideo (some "video") =
      Except.error ⟨400, videoTypeDetail exCfg⟩ ∧
    analyze_audio exCfg exBadAudio =
      ([Event.validateAudio], Except.error ⟨400, audioTypeDetail exCfg⟩) ∧
    analyze_video exCfg exDec exBadVideo =
      ([Event.validateVideo], Except.error ⟨400, videoTypeDetail exCfg⟩) :=
  bad_type_rejected exCfg exDec exBadAudio exBadVideo (by decide) (by decide)

/-- Claim C6: for a file of an allowed type the validator rejects with
status 413 exactly when the byte length strictly exceeds the ceiling, a
file exactly at the ceiling passes, and the MIME check precedes the size
check, so a file failing both gets the 400 error. -/
theorem size_limit (cfg : Config) (file : UploadFile) :
    (file.content_type ∈ cfg.ALLOWED_AUDIO_TYPES →
      validate_file cfg file (some "audio") =
        if file.data.length > cfg.MAX_FILE_SIZE then
          Except.error ⟨413, sizeDetail cfg⟩
        else Except.ok { file with pos := 0 }) ∧
    (file.content_type ∈ cfg.ALLOWED_VIDEO_TYPES →
      validate_file cfg file (some "video") =
        if file.data.length > cfg.MAX_FILE_SIZE then
          Except.error ⟨413, sizeDetail cfg⟩
        else Except.ok { file with pos := 0 }) ∧
    (file.content_type ∈ cfg.ALLOWED_AUDIO_TYPES →
      file.data.length = cfg.MAX_FILE_SIZE →
      validate_file cfg file (some "audio") = Except.ok { file with pos := 0 }) ∧
    (file.content_type ∉ cfg.ALLOWED_AUDIO_TYPES →
      file.data.length > cfg.MAX_FILE_SIZE →
      validate_file cfg file (some "audio") =
        Except.error ⟨400, audioTypeDetail cfg⟩) ∧
    (file.content_type ∉ cfg.ALLOWED_VIDEO_TYPES →
      file.data.length > cfg.MAX_FILE_SIZE →
      validate_file cfg file (some "video") =
        Except.error ⟨400, videoTypeDetail cfg⟩) := by
  refine ⟨fun h => ?_, fun h => ?_, fun h hl => ?_, fun h hl => ?_, fun h hl => ?_⟩
  · simp [validate_file, mimeCheck, h]
  · simp [validate_file, mimeCheck, h]
  · simp [validate_file, mimeCheck, h, hl]
  · simp [validate_file, mimeCheck, h]
  · simp [validate_file, mimeCheck, h]

/-- Witness for C6: an oversized allowed file gets 413, a file exactly at
the ceiling passes, and an oversized disallowed file gets 400. -/
theorem size_limit_witness :
    validate_file exCfg exBigAudio (some "audio") =
      Except.error ⟨413, sizeDetail exCfg⟩ ∧
    validate_file exCfg exMaxAudio (some "audio") =
      Except.ok { exMaxAudio with pos := 0 } ∧
    validate_file exCfg exBigBadAudio (some "audio") =
      Except.error ⟨400, audioTypeDetail exCfg⟩ := by
  have hbig : exBigAudio.data.length > exCfg.MAX_FILE_SIZE := by
    show (List.replicate (10 * 1024 * 1024 + 1) 0).length > _
    rw [List.length_replicate]
    decide
  have hmax : exMaxAudio.data.length = exCfg.MAX_FILE_SIZE := by
    show (List.replicate (10 * 1024 * 1024) 0).length = _
    rw [List.length_replicate]
    decide
  have hbigbad : exBigBadAudio.data.length > exCfg.MAX_FILE_SIZE := by
    show (List.replicate (10 * 1024 * 1024 + 1) 0).length > _
    rw [List.length_replicate]
    decide
  refine ⟨?_, ?_, ?_⟩
  · rw [(size_limit exCfg exBigAudio).1 (by decide), if_pos hbig]
  · exact (size_limit exCfg exMaxAudio).2.2.1 (by decide) hmax
  · exact (size_limit exCfg exBigBadAudio).2.2.2.1 (by decide) hbigbad

/-- Claim C3: the authentication gate lets a delegate 200 response
through, turns any other delegate status into a 401 error, and turns an
unreachable or timed-out delegate into a 503 error (not a generic 500). -/
theorem auth_gate_outcomes (s : Nat) (hs : s ≠ 200) :
    verify_token (AuthResult.response 200) = Except.ok () ∧
    verify_token (AuthResult.response s) =
      Except.error ⟨401, "Token invalide"⟩ ∧
    verify_token AuthResult.networkError =
      Except.error ⟨503, "Service authentification indisponible"⟩ := by
  exact ⟨by simp [verify_token], by simp [verify_token, hs], by simp [verify_token]⟩

/-- Witness for C3 at the delegate status 404. -/
theorem auth_gate_outcomes_witness :
    verify_token (AuthResult.response 200) = Except.ok () ∧
    verify_token (AuthResult.response 404) =
      Except.error ⟨401, "Token invalide"⟩ ∧
    verify_token AuthResult.networkError =
      Except.error ⟨503, "Service authentification indisponible"⟩ :=
  auth_gate_outcomes 404 (by decide)

/-- Claim C8 counterexample: the environment supplies `MAX_FILE_SIZE = 5`,
yet the loaded configuration keeps the hardcoded ceiling of 10 MiB, so the
environment value is not used as the size ceiling. -/
theorem max_size_not_env_sourced :
    exEnvMax.MAX_FILE_SIZE = some 5 ∧
    (Config.ofEnv exEnvMax).MAX_FILE_SIZE = 10 * 1024 * 1024 ∧
    (Config.ofEnv exEnvMax).MAX_FILE_SIZE ≠ 5 :=
  ⟨rfl, rfl, by decide⟩

/-- Claim C8 (amended): the audio threshold, video threshold, auth base
URL and port are environment-sourced with their defaults, but the maximum
upload size is the fixed constant 10 MiB for every environment. -/
theorem config_env_sourcing (env : Env) :
    (Config.ofEnv env).MAX_FILE_SIZE = 10 * 1024 * 1024 ∧
    (Config.ofEnv env).MIN_AUDIO_SCORE = env.MIN_AUDIO_SCORE.getD 0.7 ∧
    (Config.ofEnv env).MIN_VIDEO_SCORE = env.MIN_VIDEO_SCORE.getD 0.5 ∧
    (Config.ofEnv env).AUTH_SERVICE_URL =
      env.AUTH_SERVICE_URL.getD "http://auth-service:9000" ∧
    port env = env.PORT.getD 8000 :=
  ⟨rfl, rfl, rfl, rfl, rfl⟩

/-- Claim C7: for a video file that passes validation, a failed decode
yields the 500 internal error; a successful decode scores 0.6 when the
mean pixel intensity is strictly below 100 and 0.2 otherwise. -/
theorem video_decode_brightness (cfg : Config)
    (dec : List Nat → Option (List Nat)) (video : UploadFile)
    (hct : video.content_type ∈ cfg.ALLOWED_VIDEO_TYPES)
    (hsz : video.data.length ≤ cfg.MAX_FILE_SIZE) :
    (dec video.data = none →
      analyze_video cfg dec video =
        ([Event.validateVideo, Event.scoreVideo],
         Except.error ⟨500, "Erreur lors de l analyse vidéo"⟩)) ∧
    (∀ img, dec video.data = some img → mean img < 100 →
      analyze_video cfg dec video =
        ([Event.validateVideo, Event.scoreVideo],
         Except.ok (0.6, { video with pos := video.data.length }))) ∧
    (∀ img, dec video.data = some img → ¬ mean img < 100 →
      analyze_video cfg dec video =
        ([Event.validateVideo, Event.scoreVideo],
         Except.ok (0.2, { video with pos := video.data.length }))) := by
  have hv : validate_file cfg video (some "video") =
      Except.ok { video with pos := 0 } := by
    simp [validate_file, mimeCheck, hct, Nat.not_lt.mpr hsz]
  refine ⟨fun hd => ?_, fun img hd hm => ?_, fun img hd hm => ?_⟩
  · simp [analyze_video, hv, read, hd]
  · simp [analyze_video, hv, read, hd, hm]
  · simp [analyze_video, hv, read, hd, hm]

/-- Witness for C7: a failing decoder gives the 500 error, a dark decode
scores 0.6, a bright decode scores 0.2, all on the same validated file. -/
theorem video_decode_brightness_witness :
    analyze_video exCfg exDecNone exVideo =
      ([Event.validateVideo, Event.scoreVideo],
       Except.error ⟨500, "Erreur lors de l analyse vidéo"⟩) ∧
    analyze_video exCfg exDec exVideo =
      ([Event.validateVideo, Event.scoreVideo],
       Except.ok (0.6, { exVideo with pos := exVideo.data.length })) ∧
    analyze_video exCfg exDecBright exVideo =
      ([Event.validateVideo, Event.scoreVideo],
       Except.ok (0.2, { exVideo with pos := exVideo.data.length })) :=
  ⟨(video_decode_brightness exCfg exDecNone exVideo (by decide) (by decide)).1
      rfl,
   (video_decode_brightness exCfg exDec exVideo (by decide) (by decide)).2.1
      [50, 50, 50] rfl (by norm_num [mean, List.sum_cons, List.sum_nil]),
   (video_decode_brightness exCfg exDecBright exVideo (by decide)
      (by decide)).2.2
      [200, 100] rfl (by norm_num [mean, List.sum_cons, List.sum_nil])⟩

/-- Claim C4 counterexample: a request carrying no bearer token is
rejected with status 403 (the security scheme's "Not authenticated"
error), not with a 401 unauthorized error. -/
theorem missing_token_not_unauthorized :
    (analyze exCfg exDec none exDelegate exAudio exVideo).2 =
      Except.error ⟨403, "Not authenticated"⟩ ∧ (403 : Nat) ≠ 401 :=
  ⟨rfl, by decide⟩

/-- Claim C4 (amended): an expired or invalid token — the delegate
responds with a non-200 status — yields the 401 unauthorized error, and a
missing bearer token yields the security scheme's 403 error; both traces
contain no validation step and the outcome is the same for every pair of
uploaded files. -/
theorem auth_failure_before_validation (cfg : Config)
    (dec : List Nat → Option (List Nat)) (delegate : String → AuthResult)
    (audio video : UploadFile) (tok : String) (s : Nat)
    (hd : delegate tok = AuthResult.response s) (hs : s ≠ 200) :
    analyze cfg dec none delegate audio video =
      ([Event.authenticate], Except.error ⟨403, "Not authenticated"⟩) ∧
    analyze cfg dec (some tok) delegate audio video =
      ([Event.authenticate], Except.error ⟨401, "Token invalide"⟩) := by
  refine ⟨rfl, ?_⟩
  simp [analyze, hd, verify_token, hs]

/-- Witness for C4 (amended) at a delegate answering 404 on every token. -/
theorem auth_failure_before_validation_witness :
    analyze exCfg exDec none exDelegate404 exAudio exVideo =
      ([Event.authenticate], Except.error ⟨403, "Not authenticated"⟩) ∧
    analyze exCfg exDec (some "token-1") exDelegate404 exAudio exVideo =
      ([Event.authenticate], Except.error ⟨401, "Token invalide"⟩) :=
  auth_failure_before_validation exCfg exDec exDelegate404 exAudio exVideo
    "token-1" 404 rfl (by decide)

/-- Evaluation of the audio scorer on the example audio upload. -/
theorem exAudio_eval :
    analyze_audio exCfg exAudio =
      ([Event.validateAudio, Event.scoreAudio],
       Except.ok (0.75, ⟨"audio/wav", [1, 2, 3], 3⟩)) := rfl

/-- Evaluation of the video scorer on the example image upload with the
dark example decoder. -/
theorem exVideo_eval :
    analyze_video exCfg exDec exVideo =
      ([Event.validateVideo, Event.scoreVideo],
       Except.ok (0.6, ⟨"image/png", [9, 9], 2⟩)) := by
  have hm : mean [50, 50, 50] < 100 := by
    norm_num [mean, List.sum_cons, List.sum_nil]
  simp [analyze_video, validate_file, mimeCheck, read, exDec, exVideo,
    exCfg, exEnv, Config.ofEnv, hm]

/-- Evaluation of the whole example request: the pipeline follows
`codeTrace` and answers with `exVerdict`. -/
theorem exRequest_eval :
    analyze exCfg exDec (some "token-1") exDelegate exAudio exVideo =
      (codeTrace, Except.ok exVerdict) := by
  have e3 : verify_token (exDelegate "token-1") = Except.ok () := rfl
  simp only [analyze, e3, exAudio_eval, exVideo_eval]
  norm_num [codeTrace, exVerdict, exCfg, exEnv, Config.ofEnv, exAudio,
    exVideo, round2, roundHalfEven, Prod.mk.injEq, Except.ok.injEq,
    Verdict.mk.injEq]

/-- Claim C1: whenever both scoring steps succeed, the alert field of the
response is true iff the audio score exceeds the audio threshold or the
video score exceeds the video threshold. -/
theorem alert_or_semantics (cfg : Config) (dec : List Nat → Option (List Nat))
    (creds : Option String) (delegate : String → AuthResult)
    (audio video : UploadFile) (sa sv : ℚ) (a1 v1 : UploadFile)
    (verdict : Verdict)
    (ha : (analyze_audio cfg audio).2 = Except.ok (sa, a1))
    (hv : (analyze_video cfg dec video).2 = Except.ok (sv, v1))
    (h : (analyze cfg dec creds delegate audio video).2 = Except.ok verdict) :
    verdict.alert = true ↔
      (sa > cfg.MIN_AUDIO_SCORE ∨ sv > cfg.MIN_VIDEO_SCORE) := by
  cases creds with
  | none => simp [analyze] at h
  | some tok =>
    simp only [analyze] at h
    cases hvt : verify_token (delegate tok) with
    | error e => rw [hvt] at h; simp at h
    | ok u =>
      rw [hvt] at h
      rcases hA : analyze_audio cfg audio with ⟨ta, ra⟩
      rw [hA] at h ha
      cases ra with
      | error e => simp at ha
      | ok p =>
        obtain ⟨sa1, a2⟩ := p
        simp at ha
        obtain ⟨rfl, rfl⟩ := ha
        rcases hV : analyze_video cfg dec video with ⟨tv, rv⟩
        rw [hV] at h hv
        cases rv with
        | error e => simp at hv
        | ok q =>
          obtain ⟨sv1, v2⟩ := q
          simp at hv
          obtain ⟨rfl, rfl⟩ := hv
          simp at h
          subst h
          simp [Bool.or_eq_true, decide_eq_true_eq]

/-- Witness for C1 at the example request. -/
theorem alert_or_semantics_witness :
    exVerdict.alert = true ↔
      ((0.75 : ℚ) > exCfg.MIN_AUDIO_SCORE ∨
        (0.6 : ℚ) > exCfg.MIN_VIDEO_SCORE) :=
  alert_or_semantics exCfg exDec (some "token-1") exDelegate exAudio exVideo
    0.75 0.6 ⟨"audio/wav", [1, 2, 3], 3⟩ ⟨"image/png", [9, 9], 2⟩ exVerdict
    (by rw [exAudio_eval]) (by rw [exVideo_eval]) (by rw [exRequest_eval])

/-- Claim C2: in a successful response the reported scores are the raw
scores rounded to two decimal places, while the alert field is computed
from the unrounded scores. -/
theorem scores_rounded (cfg : Config) (dec : List Nat → Option (List Nat))
    (creds : Option String) (delegate : String → AuthResult)
    (audio video : UploadFile) (sa sv : ℚ) (a1 v1 : UploadFile)
    (verdict : Verdict)
    (ha : (analyze_audio cfg audio).2 = Except.ok (sa, a1))
    (hv : (analyze_video cfg dec video).2 = Except.ok (sv, v1))
    (h : (analyze cfg dec creds delegate audio video).2 = Except.ok verdict) :
    verdict.scores_audio = round2 sa ∧
    verdict.scores_video = round2 sv ∧
    verdict.alert = (decide (sa > cfg.MIN_AUDIO_SCORE) ||
      decide (sv > cfg.MIN_VIDEO_SCORE)) := by
  cases creds with
  | none => simp [analyze] at h
  | some tok =>
    simp only [analyze] at h
    cases hvt : verify_token (delegate tok) with
    | error e => rw [hvt] at h; simp at h
    | ok u =>
      rw [hvt] at h
      rcases hA : analyze_audio cfg audio with ⟨ta, ra⟩
      rw [hA] at h ha
      cases ra with
      | error e => simp at ha
      | ok p =>
        obtain ⟨sa1, a2⟩ := p
        simp at ha
        obtain ⟨rfl, rfl⟩ := ha
        rcases hV : analyze_video cfg dec video with ⟨tv, rv⟩
        rw [hV] at h hv
        cases rv with
        | error e => simp at hv
        | ok q =>
          obtain ⟨sv1, v2⟩ := q
          simp at hv
          obtain ⟨rfl, rfl⟩ := hv
          simp at h
          subst h
          exact ⟨rfl, rfl, rfl⟩

/-- Witness for C2 at the example request. -/
theorem scores_rounded_witness :
    exVerdict.scores_audio = round2 0.75 ∧
    exVerdict.scores_video = round2 0.6 ∧
    exVerdict.alert = (decide ((0.75 : ℚ) > exCfg.MIN_AUDIO_SCORE) ||
      decide ((0.6 : ℚ) > exCfg.MIN_VIDEO_SCORE)) :=
  scores_rounded exCfg exDec (some "token-1") exDelegate exAudio exVideo
    0.75 0.6 ⟨"audio/wav", [1, 2, 3], 3⟩ ⟨"image/png", [9, 9], 2⟩ exVerdict
    (by rw [exAudio_eval]) (by rw [exVideo_eval]) (by rw [exRequest_eval])

/-- The audio scorer either fails at validation with a bare validation
trace, or succeeds with the validate-then-score trace. -/
theorem analyze_audio_cases (cfg : Config) (audio : UploadFile) :
    (∃ e, analyze_audio cfg audio =
      ([Event.validateAudio], Except.error e)) ∨
    (∃ p, analyze_audio cfg audio =
      ([Event.validateAudio, Event.scoreAudio], Except.ok p)) := by
  unfold analyze_audio
  split
  · exact Or.inl ⟨_, rfl⟩
  · exact Or.inr ⟨_, rfl⟩

/-- The video scorer fails at validation with a bare validation trace, or
attempts scoring after validating, failing or succeeding there. -/
theorem analyze_video_cases (cfg : Config)
    (dec : List Nat → Option (List Nat)) (video : UploadFile) :
    (∃ e, analyze_video cfg dec video =
      ([Event.validateVideo], Except.error e)) ∨
    (∃ e, analyze_video cfg dec video =
      ([Event.validateVideo, Event.scoreVideo], Except.error e)) ∨
    (∃ p, analyze_video cfg dec video =
      ([Event.validateVideo, Event.scoreVideo], Except.ok p)) := by
  unfold analyze_video
  split
  · exact Or.inl ⟨_, rfl⟩
  · dsimp only
    split
    · exact Or.inr (Or.inl ⟨_, rfl⟩)
    · exact Or.inr (Or.inr ⟨_, rfl⟩)

/-- Claim C9 (amended): within one request the steps run in the order
authenticate, validate(audio), score(audio), validate(video),
score(video), compose — each scorer validates its own file immediately
before scoring it.  Every execution trace is a prefix of `codeTrace`, so
any step's failure short-circuits the pipeline and no step repeats, and a
successful request executes exactly `codeTrace`. -/
theorem pipeline_step_order (cfg : Config)
    (dec : List Nat → Option (List Nat)) (creds : Option String)
    (delegate : String → AuthResult) (audio video : UploadFile) :
    traceLe (analyze cfg dec creds delegate audio video).1 codeTrace = true ∧
    (∀ v, (analyze cfg dec creds delegate audio video).2 = Except.ok v →
      (analyze cfg dec creds delegate audio video).1 = codeTrace) := by
  cases creds with
  | none =>
    exact ⟨rfl, fun v h => by simp [analyze] at h⟩
  | some tok =>
    cases hvt : verify_token (delegate tok) with
    | error e =>
      refine ⟨?_, fun v h => ?_⟩
      · simp only [analyze, hvt]
        rfl
      · simp [analyze, hvt] at h
    | ok u =>
      rcases analyze_audio_cases cfg audio with ⟨e, hA⟩ | ⟨⟨sa, a1⟩, hA⟩
      · refine ⟨?_, fun v h => ?_⟩
        · simp only [analyze, hvt, hA]
          rfl
        · simp [analyze, hvt, hA] at h
      · rcases analyze_video_cases cfg dec video with
          ⟨e, hV⟩ | ⟨e, hV⟩ | ⟨⟨sv, v1⟩, hV⟩
        · refine ⟨?_, fun v h => ?_⟩
          · simp only [analyze, hvt, hA, hV]
            rfl
          · simp [analyze, hvt, hA, hV] at h
        · refine ⟨?_, fun v h => ?_⟩
          · simp only [analyze, hvt, hA, hV]
            rfl
          · simp [analyze, hvt, hA, hV] at h
        · refine ⟨?_, fun v h => ?_⟩
          · simp only [analyze, hvt, hA, hV]
            rfl
          · simp only [analyze, hvt, hA, hV]
            rfl

/-- Witness for C9 (amended) at the successful example request. -/
theorem pipeline_step_order_witness :
    traceLe (analyze exCfg exDec (some "token-1") exDelegate exAudio
      exVideo).1 codeTrace = true ∧
    (analyze exCfg exDec (some "token-1") exDelegate exAudio exVideo).1 =
      codeTrace :=
  ⟨(pipeline_step_order exCfg exDec (some "token-1") exDelegate exAudio
      exVideo).1,
   (pipeline_step_order exCfg exDec (some "token-1") exDelegate exAudio
      exVideo).2 exVerdict (by rw [exRequest_eval])⟩

/-- Claim C9 counterexample: with a valid audio file and a video file of a
disallowed type, the executed trace scores the audio before validating
the video, so it is not a prefix of the specified step order
`specTrace`. -/
theorem audio_scored_before_video_validated :
    (analyze exCfg exDec (some "token-1") exDelegate exAudio exBadVideo).1 =
      [Event.authenticate, Event.validateAudio, Event.scoreAudio,
       Event.validateVideo] ∧
    traceLe (analyze exCfg exDec (some "token-1") exDelegate exAudio
      exBadVideo).1 specTrace = false :=
  ⟨rfl, rfl⟩

end SilentCry
